import Mathlib

/-!
Shallow embedding of the Roborock Home Assistant integration
(`roborock/entity.py`, `roborock/sensor.py`, `roborock/vacuum.py`).

Python objects with optional attributes become structures with `Option`
fields; `getattr(x, "f", None)` becomes reading the `Option` field.
Exceptions become `Except`; awaited side effects (device commands,
coordinator refreshes) become explicit effect lists.
-/

/-- Home Assistant vacuum activity enum (`homeassistant.components.vacuum.VacuumActivity`),
an external dependency with exactly these six members. -/
inductive VacuumActivity
  | CLEANING
  | DOCKED
  | RETURNING
  | ERROR
  | PAUSED
  | IDLE
deriving DecidableEq, Repr

/-- Modelled from the spec: the fan-speed mapping table `SCWindMapping`
(`roborock.data.b01_q7.b01_q7_code_mappings`) belongs to the external device
library and is not part of this repository's sources.  The spec treats it as
an opaque "mapping table" of fan-speed modes.  It is modelled, like any
Python `Enum`, as a finite type with a list of members in declaration order,
pairwise-distinct member names, and name-keyed item lookup. -/
inductive SCWindMapping
  | quiet
  | balanced
  | turbo
  | max
deriving DecidableEq, Repr

/-- The `.name` attribute of a Python enum member. -/
def SCWindMapping.name : SCWindMapping → String
  | .quiet => "quiet"
  | .balanced => "balanced"
  | .turbo => "turbo"
  | .max => "max"

/-- The members of the enum in declaration order (Python `list(SCWindMapping)`,
as iterated by `[mode.name for mode in SCWindMapping]`). -/
def SCWindMapping.members : List SCWindMapping :=
  [.quiet, .balanced, .turbo, .max]

/-- Python `SCWindMapping[s]`: lookup of an enum member by name.  Python
raises `KeyError` when no member has the name; that is `none` here. -/
def SCWindMapping.getItem (s : String) : Option SCWindMapping :=
  SCWindMapping.members.find? (fun m => m.name = s)

/-- A value found in the `wind` attribute of the coordinator data: either a
genuine `SCWindMapping` member or a value of some unexpected type (the
`isinstance(wind, SCWindMapping)` check in `fan_speed` distinguishes the
two; `raw` stands for the unexpected value's representation). -/
inductive WindValue
  | sc (m : SCWindMapping)
  | other (raw : String)
deriving DecidableEq, Repr

/-- Decoded B01/Q7 device state held in `coordinator.data` (`B01Props` of the
external library).  Every attribute read in `sensor.py` / `vacuum.py` goes
through `getattr(data, "...", None)`, so each is an `Option` field; a missing
attribute and an attribute holding `None` both embed as `none`. -/
structure B01Data where
  status_name : Option String := none
  wind : Option WindValue := none
  main_brush_time_left : Option Int := none
  side_brush_time_left : Option Int := none
  hypa_time_left : Option Int := none
  main_sensor_time_left : Option Int := none
  mop_life_time_left : Option Int := none
  cleaning_time : Option Int := none
  real_clean_time : Option Int := none
  cleaning_area : Option Int := none
  total_cleaning_area : Option Int := none

/-- A sensor state value (`StateType`): a string or a number. -/
inductive StateVal
  | str (s : String)
  | int (n : Int)
deriving DecidableEq, Repr

/-- A dock error status code (`RoborockDockErrorCode` of the external
library); only its `.name` attribute is read here. -/
structure DockErrorStatus where
  name : String
deriving DecidableEq, Repr

/-- V1 `Status` object (`roborock.data.Status` of the external library): a
typed record whose fields are optional and default to `None`.  `dock_type`
is its dock-type code compared against `0` (`RoborockDockTypeCode.no_dock`);
the code is embedded by its integer value. -/
structure Status where
  battery : Option Int := none
  clean_time : Option Int := none
  dock_error_status : Option DockErrorStatus := none
  dock_type : Option Int := none

/-- V1 coordinator data (`DeviceState` from `.models`): exposes `.status`. -/
structure DeviceState where
  status : Status

-- ============================================================
-- vacuum.py
-- ============================================================

namespace RoborockVacuum

/-- `RoborockVacuum.activity` (vacuum.py lines 63-80).  The property reads
`getattr(self.coordinator.data, "status_name", None)` and runs a chain of
membership tests.  Its Python annotation is `VacuumActivity | None`, so the
codomain is `Option VacuumActivity`; every `return` in the source returns a
member, never `None`. -/
def activity (d : B01Data) : Option VacuumActivity :=
  if d.status_name ∈ (["cleaning", "sweep_moping", "sweep_moping_2", "moping", "sweeping"].map some) then
    some VacuumActivity.CLEANING
  else if d.status_name ∈ (["docked", "charging", "mop_cleaning", "mop_airdrying"].map some) then
    some VacuumActivity.DOCKED
  else if d.status_name ∈ (["returning", "docking"].map some) then
    some VacuumActivity.RETURNING
  else if d.status_name = some "error" then
    some VacuumActivity.ERROR
  else if d.status_name = some "paused" then
    some VacuumActivity.PAUSED
  else
    some VacuumActivity.IDLE

/-- `RoborockVacuum.fan_speed` (vacuum.py lines 82-99): `None` wind renders
unknown, an `SCWindMapping` member renders its name, anything else is logged
and renders `None`. -/
def fan_speed (d : B01Data) : Option String :=
  match d.wind with
  | none => none
  | some (WindValue.sc m) => some m.name
  | some (WindValue.other _) => none

/-- `RoborockVacuum.fan_speed_list` (vacuum.py lines 101-104):
`[mode.name for mode in SCWindMapping]`. -/
def fan_speed_list : List String :=
  SCWindMapping.members.map SCWindMapping.name

end RoborockVacuum

/-- A command-API call on `coordinator.device.b01_q7_properties`, the device
command handle used by the vacuum entity's control callbacks. -/
inductive B01Command
  | start_clean
  | pause_clean
  | stop_clean
  | return_to_dock
  | set_fan_speed (m : SCWindMapping)
deriving DecidableEq, Repr

namespace RoborockVacuum

/-- `RoborockVacuum.async_set_fan_speed` (vacuum.py lines 106-112), rendered
as the list of device commands it awaits: `SCWindMapping[fan_speed]` inside
`try` looks the member up by name; on `KeyError` the handler only logs, so
no command is sent. -/
def async_set_fan_speed (fan_speed : String) : List B01Command :=
  match SCWindMapping.getItem fan_speed with
  | some mode => [B01Command.set_fan_speed mode]
  | none => []

/-- `RoborockVacuum.async_start` (vacuum.py lines 114-116), as the list of
device commands it awaits; the argument stands for `self`'s coordinator. -/
def async_start (_c : B01Data) : List B01Command :=
  [B01Command.start_clean]

/-- `RoborockVacuum.async_pause` (vacuum.py lines 118-120). -/
def async_pause (_c : B01Data) : List B01Command :=
  [B01Command.pause_clean]

/-- `RoborockVacuum.async_stop` (vacuum.py lines 122-124). -/
def async_stop (_c : B01Data) : List B01Command :=
  [B01Command.stop_clean]

/-- `RoborockVacuum.async_return_to_base` (vacuum.py lines 126-128). -/
def async_return_to_base (_c : B01Data) : List B01Command :=
  [B01Command.return_to_dock]

end RoborockVacuum

-- ============================================================
-- entity.py
-- ============================================================

/-- A member of the external `RoborockCommand` enum
(`roborock.roborock_typing`); only its `.name` attribute is read here. -/
structure RoborockCommand where
  name : String
deriving DecidableEq, Repr

/-- The `command` argument of `RoborockEntityV1.send`, annotated
`RoborockCommand | str` in the source. -/
inductive CommandArg
  | cmd (c : RoborockCommand)
  | str (s : String)
deriving DecidableEq, Repr

/-- The `params` argument of `RoborockEntityV1.send`, annotated
`dict[str, Any] | list[Any] | int | None`; payloads embed as state values. -/
inductive Params
  | dict (entries : List (String × StateVal))
  | list (items : List StateVal)
  | int (n : Int)
  | none
deriving DecidableEq, Repr

/-- The `dict` response of the command API. -/
def Response : Type := List (String × StateVal)

/-- The library-specific exception (`roborock.exceptions.RoborockException`). -/
structure RoborockException where
  msg : String
deriving DecidableEq, Repr

/-- The host-platform user-facing error (`homeassistant.exceptions.HomeAssistantError`),
carrying the translation fields the source constructs. -/
structure HomeAssistantError where
  translation_domain : String
  translation_key : String
  translation_placeholders : List (String × String)
deriving DecidableEq, Repr

/-- Modelled from the spec: `DOMAIN` is imported from `.const`, a repository
module missing from the sources; it is the integration's domain string. -/
def DOMAIN : String := "roborock"

/-- The device-command API held in `self._api` (a `CommandTrait`): an opaque
async callable that either returns a response `dict` or raises
`RoborockException`. -/
def CommandApi : Type := CommandArg → Params → Except RoborockException Response

namespace RoborockEntityV1

/-- `RoborockEntityV1.send` (entity.py lines 43-56): awaits
`self._api.send(command, params=params)`; on `RoborockException` it re-raises
`HomeAssistantError` with `translation_domain=DOMAIN`,
`translation_key="command_failed"` and the failed command's name (the enum
member's `.name` for a `RoborockCommand`, the string itself otherwise) as the
`command` translation placeholder; otherwise the response is returned. -/
def send (api : CommandApi) (command : CommandArg) (params : Params) :
    Except HomeAssistantError Response :=
  match api command params with
  | Except.ok response => Except.ok response
  | Except.error _err =>
      let command_name :=
        match command with
        | CommandArg.cmd c => c.name
        | CommandArg.str s => s
      Except.error
        { translation_domain := DOMAIN
          translation_key := "command_failed"
          translation_placeholders := [("command", command_name)] }

end RoborockEntityV1

/-- An awaited coordinator side effect. -/
inductive CoordinatorEffect
  | refresh
deriving DecidableEq, Repr

namespace RoborockCoordinatedEntityV1

/-- `RoborockCoordinatedEntityV1.send` (entity.py lines 76-79):
`res = await super().send(command, params)` then
`await self.coordinator.async_refresh()` then `return res`.  If the inherited
`send` raises, the exception propagates before the refresh line runs; the
second component records the coordinator effects that were awaited. -/
def send (api : CommandApi) (command : CommandArg) (params : Params) :
    Except HomeAssistantError Response × List CoordinatorEffect :=
  match RoborockEntityV1.send api command params with
  | Except.ok res => (Except.ok res, [CoordinatorEffect.refresh])
  | Except.error e => (Except.error e, [])

end RoborockCoordinatedEntityV1

-- ============================================================
-- sensor.py
-- ============================================================

/-- `RoborockSensorDescription` (sensor.py lines 39-42): key plus a value
extraction function over V1 device state. -/
structure RoborockSensorDescription where
  key : String
  value_fn : DeviceState → Option StateVal
  is_dock_entity : Bool := false

/-- `RoborockSensorDescriptionA01` (sensor.py lines 45-47): key plus the data
protocol it subscribes to. -/
structure RoborockSensorDescriptionA01 where
  key : String
  data_protocol : String

/-- `RoborockSensorDescriptionB01` (sensor.py lines 50-52): key plus a value
extraction function over B01 device state. -/
structure RoborockSensorDescriptionB01 where
  key : String
  value_fn : B01Data → Option StateVal

/-- `_dock_error_value_fn` (sensor.py lines 55-60): returns the dock error
status name when it is not `None` and the dock type is not `0`
(`RoborockDockTypeCode.no_dock`); otherwise `None`.  A `None` dock type
compares unequal to `0` in Python. -/
def dock_error_value_fn (state : DeviceState) : Option StateVal :=
  match state.status.dock_error_status with
  | some status =>
      if state.status.dock_type ≠ some 0 then some (StateVal.str status.name) else none
  | none => none

/-- `SENSOR_DESCRIPTIONS` (sensor.py lines 66-89): the generic V1 table. -/
def SENSOR_DESCRIPTIONS : List RoborockSensorDescription :=
  [ { key := "battery", value_fn := fun data => data.status.battery.map StateVal.int },
    { key := "cleaning_time", value_fn := fun data => data.status.clean_time.map StateVal.int },
    { key := "dock_error", value_fn := dock_error_value_fn, is_dock_entity := true } ]

/-- `A01_SENSOR_DESCRIPTIONS` (sensor.py lines 94-108). -/
def A01_SENSOR_DESCRIPTIONS : List RoborockSensorDescriptionA01 :=
  [ { key := "status", data_protocol := "STATUS" },
    { key := "battery", data_protocol := "POWER" } ]

/-- `Q7_B01_SENSOR_DESCRIPTIONS` (sensor.py lines 113-198): every `value_fn`
is `lambda data: getattr(data, "...", None)`. -/
def Q7_B01_SENSOR_DESCRIPTIONS : List RoborockSensorDescriptionB01 :=
  [ { key := "q7_status", value_fn := fun data => data.status_name.map StateVal.str },
    { key := "main_brush_time_left", value_fn := fun data => data.main_brush_time_left.map StateVal.int },
    { key := "side_brush_time_left", value_fn := fun data => data.side_brush_time_left.map StateVal.int },
    { key := "filter_time_left", value_fn := fun data => data.hypa_time_left.map StateVal.int },
    { key := "sensor_time_left", value_fn := fun data => data.main_sensor_time_left.map StateVal.int },
    { key := "mop_life_time_left", value_fn := fun data => data.mop_life_time_left.map StateVal.int },
    { key := "cleaning_time", value_fn := fun data => data.cleaning_time.map StateVal.int },
    { key := "total_cleaning_time", value_fn := fun data => data.real_clean_time.map StateVal.int },
    { key := "cleaning_area", value_fn := fun data => data.cleaning_area.map StateVal.int },
    { key := "total_cleaning_area", value_fn := fun data => data.total_cleaning_area.map StateVal.int } ]

/-- A V1 update coordinator, as used by `sensor.py`: a device slug and the
latest decoded state. -/
structure RoborockDataUpdateCoordinator where
  duid_slug : String
  data : DeviceState

/-- Modelled from the spec: the A01 coordinator class lives in
`.coordinator`, a repository module missing from the sources.  Per the spec
it exposes the requested data protocols and `.data`, the decoded device
state, which `sensor.py` indexes by protocol name (`coordinator.data[...]`);
a Python mapping is embedded as an association list. -/
structure RoborockDataUpdateCoordinatorA01 where
  duid_slug : String
  request_protocols : List String
  data : List (String × StateVal)

/-- A B01/Q7 update coordinator, as used by `sensor.py` and `vacuum.py`. -/
structure RoborockDataUpdateCoordinatorB01 where
  duid_slug : String
  device_name : String
  data : B01Data

/-- `config_entry.runtime_data`: the coordinators grouped by generation. -/
structure RuntimeData where
  v1 : List RoborockDataUpdateCoordinator
  a01 : List RoborockDataUpdateCoordinatorA01
  b01 : List RoborockDataUpdateCoordinatorB01

/-- Which entity class a created sensor belongs to. -/
inductive EntityKind
  | v1
  | a01
  | b01
deriving DecidableEq, Repr

/-- One created sensor entity, recording its identity: the unique id string
passed to the entity base class, the class used, and the (description key,
device slug) pair it was created for. -/
structure EntityRecord where
  unique_id : String
  kind : EntityKind
  key : String
  slug : String
deriving DecidableEq, Repr

/-- The unique id string `f"{description.key}_{coordinator.duid_slug}"`
(sensor.py lines 249, 266, 283). -/
def mkUniqueId (key slug : String) : String :=
  key ++ "_" ++ slug

/-- The V1 loop body of `async_setup_entry` (sensor.py lines 214-218): one
entity per description whose `value_fn` on the coordinator data
`is not None`. -/
def v1SensorRows (c : RoborockDataUpdateCoordinator) : List EntityRecord :=
  SENSOR_DESCRIPTIONS.filterMap fun d =>
    if (d.value_fn c.data).isSome then
      some { unique_id := mkUniqueId d.key c.duid_slug, kind := EntityKind.v1,
             key := d.key, slug := c.duid_slug }
    else none

/-- The A01 loop body of `async_setup_entry` (sensor.py lines 221-225): one
entity per description whose `data_protocol` is among the coordinator's
requested protocols. -/
def a01SensorRows (c : RoborockDataUpdateCoordinatorA01) : List EntityRecord :=
  A01_SENSOR_DESCRIPTIONS.filterMap fun d =>
    if d.data_protocol ∈ c.request_protocols then
      some { unique_id := mkUniqueId d.key c.duid_slug, kind := EntityKind.a01,
             key := d.key, slug := c.duid_slug }
    else none

/-- The B01 loop body of `async_setup_entry` (sensor.py lines 228-232). -/
def b01SensorRows (c : RoborockDataUpdateCoordinatorB01) : List EntityRecord :=
  Q7_B01_SENSOR_DESCRIPTIONS.filterMap fun d =>
    if (d.value_fn c.data).isSome then
      some { unique_id := mkUniqueId d.key c.duid_slug, kind := EntityKind.b01,
             key := d.key, slug := c.duid_slug }
    else none

/-- `async_setup_entry` of sensor.py (lines 204-235): the list of sensor
entities handed to `async_add_entities`, in creation order (V1, then A01,
then B01 coordinators). -/
def sensor_async_setup_entry (rt : RuntimeData) : List EntityRecord :=
  rt.v1.flatMap v1SensorRows ++ rt.a01.flatMap a01SensorRows ++ rt.b01.flatMap b01SensorRows

/-- Python `KeyError` raised by mapping subscription on a missing key. -/
structure KeyError where
  key : String
deriving DecidableEq, Repr

namespace RoborockSensorEntity

/-- `RoborockSensorEntity.native_value` (sensor.py lines 251-255):
`self.entity_description.value_fn(self.coordinator.data)`. -/
def native_value (desc : RoborockSensorDescription) (data : DeviceState) : Option StateVal :=
  desc.value_fn data

end RoborockSensorEntity

namespace RoborockSensorEntityA01

/-- `RoborockSensorEntityA01.native_value` (sensor.py lines 268-272):
`self.coordinator.data[self.entity_description.data_protocol]`.  Python
mapping subscription raises `KeyError` when the key is absent. -/
def native_value (data : List (String × StateVal)) (data_protocol : String) :
    Except KeyError StateVal :=
  match data.find? (fun kv => kv.1 = data_protocol) with
  | some kv => Except.ok kv.2
  | none => Except.error { key := data_protocol }

end RoborockSensorEntityA01

namespace RoborockSensorEntityB01

/-- `RoborockSensorEntityB01.native_value` (sensor.py lines 285-289):
`self.entity_description.value_fn(self.coordinator.data)`. -/
def native_value (desc : RoborockSensorDescriptionB01) (data : B01Data) : Option StateVal :=
  desc.value_fn data

end RoborockSensorEntityB01

-- ============================================================
-- Sample data used by witnesses
-- ============================================================

/-- Coordinator data with every attribute absent. -/
def emptyB01Data : B01Data := {}

/-- Coordinator data reporting the `cleaning` status. -/
def cleaningB01Data : B01Data := { status_name := some "cleaning" }

/-- Coordinator data whose wind attribute is the `quiet` member. -/
def windQuietB01Data : B01Data := { wind := some (WindValue.sc SCWindMapping.quiet) }

/-- A command API that always fails with `RoborockException`. -/
def apiFail : CommandApi := fun _ _ => Except.error { msg := "device offline" }

/-- A command API that always succeeds. -/
def apiOk : CommandApi := fun _ _ => Except.ok [("result", StateVal.str "ok")]

/-- A sample `RoborockCommand` argument. -/
def sampleCmd : CommandArg := CommandArg.cmd { name := "APP_START" }

/-- A sample B01 coordinator whose data reports a cleaning status. -/
def sampleB01Coordinator : RoborockDataUpdateCoordinatorB01 :=
  { duid_slug := "abc123", device_name := "Roborock Q7", data := cleaningB01Data }

/-- A runtime with a single B01 coordinator. -/
def sampleRuntime : RuntimeData :=
  { v1 := [], a01 := [], b01 := [sampleB01Coordinator] }

/-- The sensor entity the sample runtime produces. -/
def sampleEntity : EntityRecord :=
  { unique_id := "q7_status_abc123", kind := EntityKind.b01,
    key := "q7_status", slug := "abc123" }

-- ============================================================
-- C1 / C8: the activity mapping
-- ============================================================

/-- C1: for every value of `status_name` read from the coordinator data, the
vacuum's `activity` property returns the documented `VacuumActivity` member:
CLEANING for the five cleaning statuses, DOCKED for the four docked statuses,
RETURNING for the two returning statuses, ERROR for "error", PAUSED for
"paused", and IDLE for every other value. -/
theorem c1_activity_status_mapping (d : B01Data) :
    (d.status_name ∈ (["cleaning", "sweep_moping", "sweep_moping_2", "moping", "sweeping"].map some) →
      RoborockVacuum.activity d = some VacuumActivity.CLEANING) ∧
    (d.status_name ∈ (["docked", "charging", "mop_cleaning", "mop_airdrying"].map some) →
      RoborockVacuum.activity d = some VacuumActivity.DOCKED) ∧
    (d.status_name ∈ (["returning", "docking"].map some) →
      RoborockVacuum.activity d = some VacuumActivity.RETURNING) ∧
    (d.status_name = some "error" →
      RoborockVacuum.activity d = some VacuumActivity.ERROR) ∧
    (d.status_name = some "paused" →
      RoborockVacuum.activity d = some VacuumActivity.PAUSED) ∧
    (d.status_name ∉ (["cleaning", "sweep_moping", "sweep_moping_2", "moping", "sweeping",
        "docked", "charging", "mop_cleaning", "mop_airdrying", "returning", "docking",
        "error", "paused"].map some) →
      RoborockVacuum.activity d = some VacuumActivity.IDLE) := by
  refine ⟨?_, ?_, ?_, ?_, ?_, ?_⟩
  · intro h
    simp only [RoborockVacuum.activity, if_pos h]
  · intro h
    simp only [List.map_cons, List.map_nil, List.mem_cons, List.not_mem_nil, or_false] at h
    rcases h with h | h | h | h <;> simp [RoborockVacuum.activity, h]
  · intro h
    simp only [List.map_cons, List.map_nil, List.mem_cons, List.not_mem_nil, or_false] at h
    rcases h with h | h <;> simp [RoborockVacuum.activity, h]
  · intro h
    simp [RoborockVacuum.activity, h]
  · intro h
    simp [RoborockVacuum.activity, h]
  · intro h
    simp only [List.map_cons, List.map_nil, List.mem_cons, List.not_mem_nil, or_false,
      not_or] at h
    obtain ⟨h1, h2, h3, h4, h5, h6, h7, h8, h9, h10, h11, h12, h13⟩ := h
    simp [RoborockVacuum.activity, h1, h2, h3, h4, h5, h6, h7, h8, h9, h10, h11, h12, h13]

/-- Witness for C1 at the concrete status `"cleaning"`. -/
theorem c1_activity_status_mapping_witness :
    (cleaningB01Data.status_name ∈
      (["cleaning", "sweep_moping", "sweep_moping_2", "moping", "sweeping"].map some)) ∧
    RoborockVacuum.activity cleaningB01Data = some VacuumActivity.CLEANING :=
  ⟨by decide, (c1_activity_status_mapping cleaningB01Data).1 (by decide)⟩

/-- C8: `activity` is total and never returns `None`: for every coordinator
data it returns some member of `VacuumActivity`, and data without a
`status_name` attribute (so the read defaults to `None`) falls through to
IDLE, despite the declared return type `VacuumActivity | None`. -/
theorem c8_activity_never_none :
    (∀ d : B01Data, (RoborockVacuum.activity d).isSome = true) ∧
    (∀ d : B01Data, d.status_name = none →
      RoborockVacuum.activity d = some VacuumActivity.IDLE) := by
  constructor
  · intro d
    simp only [RoborockVacuum.activity]
    split_ifs <;> rfl
  · intro d h
    simp [RoborockVacuum.activity, h]

/-- Witness for C8 on data whose `status_name` attribute is missing. -/
theorem c8_activity_never_none_witness :
    emptyB01Data.status_name = none ∧
    RoborockVacuum.activity emptyB01Data = some VacuumActivity.IDLE :=
  ⟨rfl, c8_activity_never_none.2 emptyB01Data rfl⟩

-- ============================================================
-- C3 / C10: the fan-speed mapping
-- ============================================================

/-- C3: for every member `m` of `SCWindMapping`, round-tripping through the
mapping yields the original mode: when the coordinator data's wind equals
`m`, `fan_speed` returns `m.name`; `m.name` is in `fan_speed_list`; and
`async_set_fan_speed m.name` looks up exactly `m` and passes it to the
device's `set_fan_speed`. -/
theorem c3_fan_speed_round_trip (m : SCWindMapping) (d : B01Data) :
    RoborockVacuum.fan_speed { d with wind := some (WindValue.sc m) } = some m.name ∧
    m.name ∈ RoborockVacuum.fan_speed_list ∧
    RoborockVacuum.async_set_fan_speed m.name = [B01Command.set_fan_speed m] := by
  refine ⟨rfl, ?_, ?_⟩ <;> cases m <;> decide

/-- C10: every non-`None` string returned by `fan_speed` is an element of
`fan_speed_list`, which consists of exactly the names of the `SCWindMapping`
members in declaration order. -/
theorem c10_fan_speed_in_list :
    (∀ (d : B01Data) (s : String),
      RoborockVacuum.fan_speed d = some s → s ∈ RoborockVacuum.fan_speed_list) ∧
    RoborockVacuum.fan_speed_list = SCWindMapping.members.map SCWindMapping.name := by
  refine ⟨?_, rfl⟩
  intro d s h
  unfold RoborockVacuum.fan_speed at h
  match hw : d.wind with
  | none => rw [hw] at h; cases h
  | some (WindValue.sc m) =>
      rw [hw] at h
      cases h
      cases m <;> decide
  | some (WindValue.other r) => rw [hw] at h; cases h

/-- Witness for C10 at a concrete wind value. -/
theorem c10_fan_speed_in_list_witness :
    RoborockVacuum.fan_speed windQuietB01Data = some "quiet" ∧
    "quiet" ∈ RoborockVacuum.fan_speed_list :=
  ⟨rfl, c10_fan_speed_in_list.1 windQuietB01Data "quiet" rfl⟩

-- ============================================================
-- C6: control callbacks
-- ============================================================

/-- C6: each vacuum control callback forwards exactly one call to the
corresponding device-library command with no arguments and no other device
command issued: `async_start` awaits only `start_clean()`, `async_pause`
only `pause_clean()`, `async_stop` only `stop_clean()`, and
`async_return_to_base` only `return_to_dock()`. -/
theorem c6_control_callbacks (c : B01Data) :
    RoborockVacuum.async_start c = [B01Command.start_clean] ∧
    RoborockVacuum.async_pause c = [B01Command.pause_clean] ∧
    RoborockVacuum.async_stop c = [B01Command.stop_clean] ∧
    RoborockVacuum.async_return_to_base c = [B01Command.return_to_dock] :=
  ⟨rfl, rfl, rfl, rfl⟩

-- ============================================================
-- C2 / C9: the send wrappers
-- ============================================================

/-- C2: for every command and params, if the device API's `send` raises
`RoborockException` then `RoborockEntityV1.send` raises `HomeAssistantError`
whose translation placeholders carry the failed command's name (the enum
member's name for a `RoborockCommand`, the string itself otherwise); if the
underlying `send` succeeds, its response is returned unchanged. -/
theorem c2_send_wraps_roborock_exception (api : CommandApi) (command : CommandArg) (params : Params) :
    (∀ e, api command params = Except.error e →
      RoborockEntityV1.send api command params = Except.error
        { translation_domain := DOMAIN
          translation_key := "command_failed"
          translation_placeholders :=
            [("command", match command with
              | CommandArg.cmd c => c.name
              | CommandArg.str s => s)] }) ∧
    (∀ r, api command params = Except.ok r →
      RoborockEntityV1.send api command params = Except.ok r) := by
  constructor
  · intro e he
    simp [RoborockEntityV1.send, he]
  · intro r hr
    simp [RoborockEntityV1.send, hr]

/-- Witness for C2 with an API that raises `RoborockException`. -/
theorem c2_send_wraps_roborock_exception_witness :
    apiFail sampleCmd Params.none = Except.error { msg := "device offline" } ∧
    RoborockEntityV1.send apiFail sampleCmd Params.none = Except.error
      { translation_domain := DOMAIN
        translation_key := "command_failed"
        translation_placeholders := [("command", "APP_START")] } :=
  ⟨rfl, (c2_send_wraps_roborock_exception apiFail sampleCmd Params.none).1 _ rfl⟩

/-- C9: `RoborockCoordinatedEntityV1.send` awaits a coordinator refresh
exactly when the underlying command succeeds, returning the response
unchanged; when the underlying send raises, the exception propagates and no
refresh is triggered. -/
theorem c9_coordinated_send_refresh (api : CommandApi) (command : CommandArg) (params : Params) :
    (∀ r, RoborockEntityV1.send api command params = Except.ok r →
      RoborockCoordinatedEntityV1.send api command params =
        (Except.ok r, [CoordinatorEffect.refresh])) ∧
    (∀ e, RoborockEntityV1.send api command params = Except.error e →
      RoborockCoordinatedEntityV1.send api command params = (Except.error e, [])) := by
  constructor
  · intro r hr
    simp [RoborockCoordinatedEntityV1.send, hr]
  · intro e he
    simp [RoborockCoordinatedEntityV1.send, he]

/-- Witness for C9 with an API that succeeds. -/
theorem c9_coordinated_send_refresh_witness :
    RoborockEntityV1.send apiOk sampleCmd Params.none =
      Except.ok [("result", StateVal.str "ok")] ∧
    RoborockCoordinatedEntityV1.send apiOk sampleCmd Params.none =
      (Except.ok [("result", StateVal.str "ok")], [CoordinatorEffect.refresh]) :=
  ⟨rfl, (c9_coordinated_send_refresh apiOk sampleCmd Params.none).1 _ rfl⟩

-- ============================================================
-- C5: non-command error handling
-- ============================================================

/-- Counterexample to C5 as stated: reading an A01 sensor's `native_value`
on coordinator data lacking the expected protocol key does not return
`None`; Python mapping subscription raises `KeyError`. -/
theorem c5_counterexample_a01_keyerror :
    RoborockSensorEntityA01.native_value [] "STATUS" = Except.error { key := "STATUS" } :=
  rfl

/-- C5 (amended): `async_set_fan_speed` with a name not in `SCWindMapping`
raises nothing and sends no command; `fan_speed` returns `None` for an
unrecognised wind value; a B01 sensor's `value_fn` on data lacking the
expected attribute returns `None`; but an A01 sensor's `native_value` on
coordinator data lacking its protocol key raises `KeyError` rather than
returning `None`. -/
theorem c5_non_command_errors :
    (∀ s : String, s ∉ SCWindMapping.members.map SCWindMapping.name →
      RoborockVacuum.async_set_fan_speed s = []) ∧
    (∀ (d : B01Data) (raw : String), d.wind = some (WindValue.other raw) →
      RoborockVacuum.fan_speed d = none) ∧
    (∀ desc ∈ Q7_B01_SENSOR_DESCRIPTIONS,
      RoborockSensorEntityB01.native_value desc emptyB01Data = none) ∧
    (∀ protocol : String,
      RoborockSensorEntityA01.native_value [] protocol = Except.error { key := protocol }) := by
  refine ⟨?_, ?_, ?_, ?_⟩
  · intro s hs
    have hfind : SCWindMapping.getItem s = none := by
      apply List.find?_eq_none.mpr
      intro m hm
      simp only [decide_eq_true_eq]
      intro hms
      exact hs (hms ▸ List.mem_map_of_mem SCWindMapping.name hm)
    simp [RoborockVacuum.async_set_fan_speed, hfind]
  · intro d raw h
    simp [RoborockVacuum.fan_speed, h]
  · intro desc hd
    fin_cases hd <;> rfl
  · intro protocol
    rfl

/-- Witness for the amended C5 at concrete inputs. -/
theorem c5_non_command_errors_witness :
    ("fastest" ∉ SCWindMapping.members.map SCWindMapping.name) ∧
    RoborockVacuum.async_set_fan_speed "fastest" = [] :=
  ⟨by decide, c5_non_command_errors.1 "fastest" (by decide)⟩

-- ============================================================
-- C4: sensors only created when value_fn is non-None
-- ============================================================

/-- Membership characterization of the V1 sensor rows. -/
theorem mem_v1SensorRows {c : RoborockDataUpdateCoordinator} {e : EntityRecord} :
    e ∈ v1SensorRows c ↔ ∃ d ∈ SENSOR_DESCRIPTIONS, (d.value_fn c.data).isSome = true ∧
      e = { unique_id := mkUniqueId d.key c.duid_slug, kind := EntityKind.v1,
            key := d.key, slug := c.duid_slug } := by
  simp only [v1SensorRows, List.mem_filterMap]
  constructor
  · rintro ⟨d, hd, hfd⟩
    by_cases hs : (d.value_fn c.data).isSome
    · rw [if_pos hs] at hfd
      exact ⟨d, hd, hs, (Option.some_inj.mp hfd).symm⟩
    · rw [if_neg hs] at hfd
      cases hfd
  · rintro ⟨d, hd, hs, rfl⟩
    exact ⟨d, hd, by rw [if_pos hs]⟩

/-- Membership characterization of the A01 sensor rows. -/
theorem mem_a01SensorRows {c : RoborockDataUpdateCoordinatorA01} {e : EntityRecord} :
    e ∈ a01SensorRows c ↔ ∃ d ∈ A01_SENSOR_DESCRIPTIONS, d.data_protocol ∈ c.request_protocols ∧
      e = { unique_id := mkUniqueId d.key c.duid_slug, kind := EntityKind.a01,
            key := d.key, slug := c.duid_slug } := by
  simp only [a01SensorRows, List.mem_filterMap]
  constructor
  · rintro ⟨d, hd, hfd⟩
    by_cases hs : d.data_protocol ∈ c.request_protocols
    · rw [if_pos hs] at hfd
      exact ⟨d, hd, hs, (Option.some_inj.mp hfd).symm⟩
    · rw [if_neg hs] at hfd
      cases hfd
  · rintro ⟨d, hd, hs, rfl⟩
    exact ⟨d, hd, by rw [if_pos hs]⟩

/-- Membership characterization of the B01 sensor rows. -/
theorem mem_b01SensorRows {c : RoborockDataUpdateCoordinatorB01} {e : EntityRecord} :
    e ∈ b01SensorRows c ↔ ∃ d ∈ Q7_B01_SENSOR_DESCRIPTIONS, (d.value_fn c.data).isSome = true ∧
      e = { unique_id := mkUniqueId d.key c.duid_slug, kind := EntityKind.b01,
            key := d.key, slug := c.duid_slug } := by
  simp only [b01SensorRows, List.mem_filterMap]
  constructor
  · rintro ⟨d, hd, hfd⟩
    by_cases hs : (d.value_fn c.data).isSome
    · rw [if_pos hs] at hfd
      exact ⟨d, hd, hs, (Option.some_inj.mp hfd).symm⟩
    · rw [if_neg hs] at hfd
      cases hfd
  · rintro ⟨d, hd, hs, rfl⟩
    exact ⟨d, hd, by rw [if_pos hs]⟩

/-- C4: `async_setup_entry` creates a sensor entity for a (coordinator,
description) pair only when the description's value-extraction function on
the coordinator's setup data is not `None` (the A01 table carries no
value-extraction functions; its entities are gated on protocol membership
instead). -/
theorem c4_setup_only_when_value_some (rt : RuntimeData) (e : EntityRecord)
    (he : e ∈ sensor_async_setup_entry rt) :
    (e.kind = EntityKind.v1 → ∃ c ∈ rt.v1, ∃ d ∈ SENSOR_DESCRIPTIONS,
      e.key = d.key ∧ e.slug = c.duid_slug ∧ d.value_fn c.data ≠ none) ∧
    (e.kind = EntityKind.b01 → ∃ c ∈ rt.b01, ∃ d ∈ Q7_B01_SENSOR_DESCRIPTIONS,
      e.key = d.key ∧ e.slug = c.duid_slug ∧ d.value_fn c.data ≠ none) := by
  simp only [sensor_async_setup_entry, List.mem_append, List.mem_flatMap] at he
  rcases he with (⟨c, hc, he⟩ | ⟨c, hc, he⟩) | ⟨c, hc, he⟩
  · rw [mem_v1SensorRows] at he
    obtain ⟨d, hd, hs, rfl⟩ := he
    refine ⟨fun _ => ⟨c, hc, d, hd, rfl, rfl, ?_⟩, fun hk => nomatch hk⟩
    simpa [Option.isSome_iff_ne_none] using hs
  · rw [mem_a01SensorRows] at he
    obtain ⟨d, hd, hs, rfl⟩ := he
    exact ⟨(fun hk => nomatch hk), (fun hk => nomatch hk)⟩
  · rw [mem_b01SensorRows] at he
    obtain ⟨d, hd, hs, rfl⟩ := he
    refine ⟨(fun hk => nomatch hk), fun _ => ⟨c, hc, d, hd, rfl, rfl, ?_⟩⟩
    simpa [Option.isSome_iff_ne_none] using hs

/-- Witness for C4 at a concrete runtime and entity. -/
theorem c4_setup_only_when_value_some_witness :
    sampleEntity ∈ sensor_async_setup_entry sampleRuntime ∧
    (sampleEntity.kind = EntityKind.b01 →
      ∃ c ∈ sampleRuntime.b01, ∃ d ∈ Q7_B01_SENSOR_DESCRIPTIONS,
        sampleEntity.key = d.key ∧ sampleEntity.slug = c.duid_slug ∧
        d.value_fn c.data ≠ none) :=
  ⟨by decide, (c4_setup_only_when_value_some sampleRuntime sampleEntity (by decide)).2⟩

-- ============================================================
-- C7: unique ids
-- ============================================================

/-- All description keys appearing in the three setup tables. -/
def allSensorKeys : List String :=
  SENSOR_DESCRIPTIONS.map (fun d => d.key) ++
  A01_SENSOR_DESCRIPTIONS.map (fun d => d.key) ++
  Q7_B01_SENSOR_DESCRIPTIONS.map (fun d => d.key)

/-- No key of the tables, followed by the underscore separator, is a proper
prefix of another key followed by the separator; this makes
`f"{key}_{slug}"` unambiguous. -/
theorem allSensorKeys_sep : ∀ k1 ∈ allSensorKeys, ∀ k2 ∈ allSensorKeys,
    (k1.data ++ ['_'] <+: k2.data ++ ['_']) → k1 = k2 := by decide

theorem mkUniqueId_data (k s : String) :
    (mkUniqueId k s).data = (k.data ++ ['_']) ++ s.data := by
  simp [mkUniqueId, String.data_append]

/-- On table keys, `mkUniqueId` is injective in both arguments. -/
theorem mkUniqueId_inj {k1 k2 s1 s2 : String} (h1 : k1 ∈ allSensorKeys)
    (h2 : k2 ∈ allSensorKeys) (h : mkUniqueId k1 s1 = mkUniqueId k2 s2) :
    k1 = k2 ∧ s1 = s2 := by
  have hd : (k1.data ++ ['_']) ++ s1.data = (k2.data ++ ['_']) ++ s2.data := by
    rw [← mkUniqueId_data, ← mkUniqueId_data, h]
  have hkeq : k1 = k2 := by
    have hp1 : (k1.data ++ ['_']) <+: ((k2.data ++ ['_']) ++ s2.data) := by
      rw [← hd]; exact List.prefix_append _ _
    have hp2 : (k2.data ++ ['_']) <+: ((k2.data ++ ['_']) ++ s2.data) :=
      List.prefix_append _ _
    rcases le_total (k1.data ++ ['_']).length (k2.data ++ ['_']).length with hle | hle
    · exact allSensorKeys_sep k1 h1 k2 h2 (List.prefix_of_prefix_length_le hp1 hp2 hle)
    · have hq1 : (k2.data ++ ['_']) <+: ((k1.data ++ ['_']) ++ s1.data) := by
        rw [hd]; exact List.prefix_append _ _
      have hq2 : (k1.data ++ ['_']) <+: ((k1.data ++ ['_']) ++ s1.data) :=
        List.prefix_append _ _
      exact (allSensorKeys_sep k2 h2 k1 h1 (List.prefix_of_prefix_length_le hq1 hq2 hle)).symm
  subst hkeq
  refine ⟨rfl, ?_⟩
  have hs : s1.data = s2.data := List.append_cancel_left hd
  cases s1; cases s2; exact congrArg String.mk hs

/-- The keys of a filter-mapped row list form a sublist of the table keys. -/
theorem rows_keys_sublist {α : Type} (T : List α) (f : α → Option EntityRecord)
    (g : α → String) (h : ∀ a e, f a = some e → e.key = g a) :
    ((T.filterMap f).map (fun e => e.key)).Sublist (T.map g) := by
  induction T with
  | nil => simp
  | cons a T ih =>
    cases hfa : f a with
    | none =>
        simp only [List.filterMap_cons, hfa, List.map_cons]
        exact ih.cons _
    | some e =>
        simp only [List.filterMap_cons, hfa, List.map_cons]
        rw [h a e hfa]
        exact ih.cons₂ _

/-- Shape of a V1 row: its unique id is built from its own key and the
coordinator's slug, and the key comes from the tables. -/
theorem v1Rows_shape (c : RoborockDataUpdateCoordinator) :
    ∀ e ∈ v1SensorRows c, e.unique_id = mkUniqueId e.key c.duid_slug ∧
      e.slug = c.duid_slug ∧ e.key ∈ allSensorKeys := by
  intro e he
  rw [mem_v1SensorRows] at he
  obtain ⟨d, hd, _, rfl⟩ := he
  refine ⟨rfl, rfl, ?_⟩
  simp only [allSensorKeys, List.mem_append]
  exact Or.inl (Or.inl (List.mem_map_of_mem _ hd))

/-- Shape of an A01 row. -/
theorem a01Rows_shape (c : RoborockDataUpdateCoordinatorA01) :
    ∀ e ∈ a01SensorRows c, e.unique_id = mkUniqueId e.key c.duid_slug ∧
      e.slug = c.duid_slug ∧ e.key ∈ allSensorKeys := by
  intro e he
  rw [mem_a01SensorRows] at he
  obtain ⟨d, hd, _, rfl⟩ := he
  refine ⟨rfl, rfl, ?_⟩
  simp only [allSensorKeys, List.mem_append]
  exact Or.inl (Or.inr (List.mem_map_of_mem _ hd))

/-- Shape of a B01 row. -/
theorem b01Rows_shape (c : RoborockDataUpdateCoordinatorB01) :
    ∀ e ∈ b01SensorRows c, e.unique_id = mkUniqueId e.key c.duid_slug ∧
      e.slug = c.duid_slug ∧ e.key ∈ allSensorKeys := by
  intro e he
  rw [mem_b01SensorRows] at he
  obtain ⟨d, hd, _, rfl⟩ := he
  refine ⟨rfl, rfl, ?_⟩
  simp only [allSensorKeys, List.mem_append]
  exact Or.inr (List.mem_map_of_mem _ hd)

/-- The keys of the V1 rows of one coordinator are pairwise distinct. -/
theorem v1Rows_keys_nodup (c : RoborockDataUpdateCoordinator) :
    ((v1SensorRows c).map (fun e => e.key)).Nodup := by
  refine List.Sublist.nodup ?_
    (show (SENSOR_DESCRIPTIONS.map (fun d => d.key)).Nodup by decide)
  unfold v1SensorRows
  exact rows_keys_sublist _ _ _ (fun a e hfe => by
    split at hfe
    · cases hfe; rfl
    · cases hfe)

/-- The keys of the A01 rows of one coordinator are pairwise distinct. -/
theorem a01Rows_keys_nodup (c : RoborockDataUpdateCoordinatorA01) :
    ((a01SensorRows c).map (fun e => e.key)).Nodup := by
  refine List.Sublist.nodup ?_
    (show (A01_SENSOR_DESCRIPTIONS.map (fun d => d.key)).Nodup by decide)
  unfold a01SensorRows
  exact rows_keys_sublist _ _ _ (fun a e hfe => by
    split at hfe
    · cases hfe; rfl
    · cases hfe)

/-- The keys of the B01 rows of one coordinator are pairwise distinct. -/
theorem b01Rows_keys_nodup (c : RoborockDataUpdateCoordinatorB01) :
    ((b01SensorRows c).map (fun e => e.key)).Nodup := by
  refine List.Sublist.nodup ?_
    (show (Q7_B01_SENSOR_DESCRIPTIONS.map (fun d => d.key)).Nodup by decide)
  unfold b01SensorRows
  exact rows_keys_sublist _ _ _ (fun a e hfe => by
    split at hfe
    · cases hfe; rfl
    · cases hfe)

/-- Within one coordinator's rows, distinct keys give distinct unique ids. -/
theorem nodup_uid_of_block (slug : String) (rows : List EntityRecord)
    (hshape : ∀ e ∈ rows, e.unique_id = mkUniqueId e.key slug ∧ e.key ∈ allSensorKeys)
    (hkeys : (rows.map (fun e => e.key)).Nodup) :
    (rows.map (fun e => e.unique_id)).Nodup := by
  induction rows with
  | nil => simp
  | cons e rows ih =>
    simp only [List.map_cons, List.nodup_cons] at hkeys ⊢
    refine ⟨?_, ih (fun x hx => hshape x (List.mem_cons_of_mem _ hx)) hkeys.2⟩
    intro hmem
    rcases List.mem_map.mp hmem with ⟨e', he', hueq⟩
    obtain ⟨hu, hk⟩ := hshape e (List.mem_cons_self e rows)
    obtain ⟨hu', hk'⟩ := hshape e' (List.mem_cons_of_mem _ he')
    have hinj := mkUniqueId_inj hk' hk (by rw [← hu', ← hu, hueq])
    exact hkeys.1 (hinj.1 ▸ List.mem_map_of_mem _ he')

/-- Across blocks with pairwise distinct slugs, all unique ids are pairwise
distinct. -/
theorem nodup_uid_blocks (blocks : List (String × List EntityRecord))
    (hslugs : (blocks.map Prod.fst).Nodup)
    (hblocks : ∀ b ∈ blocks, ((b.2.map (fun e => e.key)).Nodup ∧
      ∀ e ∈ b.2, e.unique_id = mkUniqueId e.key b.1 ∧ e.key ∈ allSensorKeys)) :
    ((blocks.flatMap Prod.snd).map (fun e => e.unique_id)).Nodup := by
  induction blocks with
  | nil => simp
  | cons b blocks ih =>
    simp only [List.map_cons, List.nodup_cons] at hslugs
    simp only [List.flatMap_cons, List.map_append]
    refine List.Nodup.append ?_
      (ih hslugs.2 (fun x hx => hblocks x (List.mem_cons_of_mem _ hx))) ?_
    · obtain ⟨hk, hs⟩ := hblocks b (List.mem_cons_self _ _)
      exact nodup_uid_of_block b.1 b.2 hs hk
    · intro u hu1 hu2
      rcases List.mem_map.mp hu1 with ⟨e, he, rfl⟩
      rcases List.mem_map.mp hu2 with ⟨e', he', hueq⟩
      rcases List.mem_flatMap.mp he' with ⟨b', hb', he'2⟩
      obtain ⟨_, hsb⟩ := hblocks b (List.mem_cons_self _ _)
      obtain ⟨_, hsb'⟩ := hblocks b' (List.mem_cons_of_mem _ hb')
      obtain ⟨hu, hk⟩ := hsb e he
      obtain ⟨hu', hk'⟩ := hsb' e' he'2
      have hinj := mkUniqueId_inj hk' hk (by rw [← hu', ← hu, hueq])
      exact hslugs.1 (hinj.2 ▸ List.mem_map_of_mem Prod.fst hb')

/-- The coordinator blocks of `async_setup_entry`: each coordinator's slug
paired with the rows it contributes, in creation order. -/
def setupBlocks (rt : RuntimeData) : List (String × List EntityRecord) :=
  rt.v1.map (fun c => (c.duid_slug, v1SensorRows c)) ++
  rt.a01.map (fun c => (c.duid_slug, a01SensorRows c)) ++
  rt.b01.map (fun c => (c.duid_slug, b01SensorRows c))

theorem flatMap_of_map {α β γ : Type} (l : List α) (f : α → β) (g : β → List γ) :
    (l.map f).flatMap g = l.flatMap (fun a => g (f a)) := by
  induction l with
  | nil => rfl
  | cons a l ih => simp [ih]

theorem setup_eq_blocks (rt : RuntimeData) :
    sensor_async_setup_entry rt = (setupBlocks rt).flatMap Prod.snd := by
  simp only [sensor_async_setup_entry, setupBlocks, List.flatMap_append, flatMap_of_map]

theorem blocks_slugs (rt : RuntimeData) :
    (setupBlocks rt).map Prod.fst =
      rt.v1.map (fun c => c.duid_slug) ++ rt.a01.map (fun c => c.duid_slug) ++
      rt.b01.map (fun c => c.duid_slug) := by
  simp only [setupBlocks, List.map_append, List.map_map]
  rfl

/-- C7: setup creates at most one entity instance per (device, description)
pair, each keyed by the string `f"{description.key}_{coordinator.duid_slug}"`,
and distinct (device, description) pairs receive distinct unique id strings:
when the coordinators' duid slugs are pairwise distinct, the unique ids of
all created sensor entities are pairwise distinct. -/
theorem c7_unique_ids (rt : RuntimeData)
    (hslugs : (rt.v1.map (fun c => c.duid_slug) ++ rt.a01.map (fun c => c.duid_slug) ++
      rt.b01.map (fun c => c.duid_slug)).Nodup) :
    ((sensor_async_setup_entry rt).map (fun e => e.unique_id)).Nodup ∧
    ∀ e ∈ sensor_async_setup_entry rt, e.unique_id = mkUniqueId e.key e.slug := by
  constructor
  · rw [setup_eq_blocks]
    apply nodup_uid_blocks
    · rw [blocks_slugs]
      exact hslugs
    · intro b hb
      simp only [setupBlocks, List.mem_append, List.mem_map] at hb
      rcases hb with (⟨c, hc, rfl⟩ | ⟨c, hc, rfl⟩) | ⟨c, hc, rfl⟩
      · exact ⟨v1Rows_keys_nodup c,
          fun e he => ⟨(v1Rows_shape c e he).1, (v1Rows_shape c e he).2.2⟩⟩
      · exact ⟨a01Rows_keys_nodup c,
          fun e he => ⟨(a01Rows_shape c e he).1, (a01Rows_shape c e he).2.2⟩⟩
      · exact ⟨b01Rows_keys_nodup c,
          fun e he => ⟨(b01Rows_shape c e he).1, (b01Rows_shape c e he).2.2⟩⟩
  · intro e he
    simp only [sensor_async_setup_entry, List.mem_append, List.mem_flatMap] at he
    rcases he with (⟨c, hc, he⟩ | ⟨c, hc, he⟩) | ⟨c, hc, he⟩
    · obtain ⟨h1, h2, _⟩ := v1Rows_shape c e he
      rw [h1, h2]
    · obtain ⟨h1, h2, _⟩ := a01Rows_shape c e he
      rw [h1, h2]
    · obtain ⟨h1, h2, _⟩ := b01Rows_shape c e he
      rw [h1, h2]

/-- Witness for C7 at a concrete runtime. -/
theorem c7_unique_ids_witness :
    (sampleRuntime.v1.map (fun c => c.duid_slug) ++
      sampleRuntime.a01.map (fun c => c.duid_slug) ++
      sampleRuntime.b01.map (fun c => c.duid_slug)).Nodup ∧
    ((sensor_async_setup_entry sampleRuntime).map (fun e => e.unique_id)).Nodup :=
  ⟨by decide, (c7_unique_ids sampleRuntime (by decide)).1⟩
